import Mathlib

/-!
Shallow embedding of the llm-factory repository's fallback-and-retry
orchestrator (`src/llm-factory.ts`), model routing table
(`src/types/models.ts`), and cost calculator
(`src/utils/tokens.ts` / the tiered version cited at
`src/utils/schema-converter.ts` lines 164-218, with the pricing table of
`src/constants/pricing.ts`).

Provider adapters are external collaborators: each attempt of a provider is
modelled by an oracle (`beh`) giving, per (model, attempt-index), the
outcome the adapter would produce.  JS numbers used for money are embedded
as exact rationals; the source's final `Number.parseFloat((x).toFixed(20))`
is the identity on the exact values produced here (all denominators divide
10^10), so it is not re-modelled.
-/

namespace LLMFactory

/-- Routing table from `src/types/models.ts` (`MODEL_PROVIDER_MAP`). -/
def MODEL_PROVIDER_MAP : List (String × String) :=
  [("gpt-4.1", "openai"),
   ("gpt-4.1-mini", "openai"),
   ("gpt-4.1-nano", "openai"),
   ("gpt-4o", "openai"),
   ("gpt-4o-mini", "openai"),
   ("gpt-4o-audio-preview", "openai"),
   ("gpt-4o-mini-audio-preview", "openai"),
   ("gemini-2.5-pro-preview-03-25", "google"),
   ("gemini-2.0-flash", "google"),
   ("gemini-2.0-flash-lite", "google"),
   ("claude-3-7-sonnet-latest", "anthropic"),
   ("claude-3-5-haiku-latest", "anthropic")]

/-- `MODEL_PROVIDER_MAP[model]`: lookup of a model id in the routing table. -/
def modelProviderLookup (model : String) : Option String :=
  MODEL_PROVIDER_MAP.lookup model

/-- The factory's `providers` map: which provider names were registered by
`initializeProviders` (a provider whose constructor threw is absent). -/
structure Factory where
  providers : String → Bool

/-- Usage metadata; only the `model` field is relevant to the orchestrator
(`result.metadata.model` rewrites, `metadata.model = result.model`). -/
structure Metadata where
  model : String
deriving DecidableEq

/-- `LLMResponse` (`src/types/responses.ts`): response text plus metadata. -/
structure LLMResponse where
  text : String
  metadata : Metadata
deriving DecidableEq

/-- `LLMFactory.getProviderForModel` (llm-factory.ts lines 56-70): throws
`Unsupported model: m` when the model is not in the routing table, and
`Provider not initialized: p` when the mapped provider is missing from the
`providers` map.  Thrown errors are the `.error` branch. -/
def getProviderForModel (f : Factory) (model : String) : Except String String :=
  match modelProviderLookup model with
  | none => .error ("Unsupported model: " ++ model)
  | some providerName =>
    if f.providers providerName then .ok providerName
    else .error ("Provider not initialized: " ++ providerName)

/-- `LLMFactory.isModelAvailable` (llm-factory.ts lines 75-82):
`Boolean(providerName && this.providers.get(providerName))`, inside a
try/catch returning false.  The body is total, so the embedding is a plain
Bool-valued function (it cannot throw). -/
def isModelAvailable (f : Factory) (model : String) : Bool :=
  match modelProviderLookup model with
  | none => false
  | some providerName => f.providers providerName

/-- Outcome of one `provider.generate` call: a resolved response, or a
rejection with an error message. -/
inductive AttemptOutcome where
  | ok (resp : LLMResponse)
  | err (msg : String)

/-- A provider oracle for single-shot mode: the outcome of the attempt with
index `i` for model `m` is `beh m i`. -/
def GenBehavior : Type := String → Nat → AttemptOutcome

instance {ε α : Type} [DecidableEq ε] [DecidableEq α] : DecidableEq (Except ε α) :=
fun a b =>
  match a, b with
  | .ok x, .ok y => decidable_of_iff (x = y) (by simp)
  | .error x, .error y => decidable_of_iff (x = y) (by simp)
  | .ok _, .error _ => isFalse (by simp)
  | .error _, .ok _ => isFalse (by simp)

/-- Result of a `generate` run: the list of provider invocations actually
made, as (model, attempt-index) pairs in order, and the settled promise. -/
structure GenRun where
  trace : List (String × Nat)
  result : Except String LLMResponse
deriving DecidableEq

/-- Inner retry loop of `generate` (llm-factory.ts lines 98-117):
`for (let attempt = 0; attempt < maxRetries; attempt++)`.  `fuel` is the
number of remaining iterations, `idx` the current attempt index, `last` the
current `lastError`.  Returns (trace, success response if any, lastError
afterwards).  On success the response's `metadata.model` is overwritten
with the current model (line 106). -/
def generateAttempts (beh : GenBehavior) (model : String) :
    Nat → Nat → Option String →
    (List (String × Nat) × Option LLMResponse × Option String)
  | 0, _, last => ([], none, last)
  | n + 1, idx, last =>
    match beh model idx with
    | .ok resp =>
      ([(model, idx)],
       some { resp with metadata := { resp.metadata with model := model } },
       last)
    | .err e =>
      let r := generateAttempts beh model n (idx + 1) (some e)
      ((model, idx) :: r.1, r.2.1, r.2.2)

/-- `lastError?.message || 'Unknown error'` (llm-factory.ts lines 121,
176, 230, 318): JS `||` falls back to `Unknown error` for every falsy
value of the message — both when `lastError` is null and when the last
error's message is the empty string. -/
def lastErrorMessage : Option String → String
  | none => "Unknown error"
  | some e => if e = "" then "Unknown error" else e

/-- Outer candidate loop of `generate` (llm-factory.ts lines 94-121).
`getProviderForModel` is called outside the inner try/catch (line 95), so
its exception aborts the whole call.  After the loop, line 121 throws
`All models failed after retries: ...` built from `lastError`. -/
def generateModels (f : Factory) (beh : GenBehavior) (maxRetries : Int) :
    List String → Option String → GenRun
  | [], last =>
    ⟨[], .error ("All models failed after retries: " ++ lastErrorMessage last)⟩
  | model :: rest, last =>
    match getProviderForModel f model with
    | .error e => ⟨[], .error e⟩
    | .ok _ =>
      let r := generateAttempts beh model maxRetries.toNat 0 last
      match r.2.1 with
      | some resp => ⟨r.1, .ok resp⟩
      | none =>
        let r' := generateModels f beh maxRetries rest r.2.2
        ⟨r.1 ++ r'.1, r'.result⟩

/-- `LLMFactory.generate` (llm-factory.ts lines 87-122).  `models` is the
candidate list (`Array.isArray(params.model) ? params.model : [params.model]`);
`retries` is `params.retries ?? 3`.  The for-loop `attempt < maxRetries`
runs `maxRetries.toNat` times (zero times for a non-positive value). -/
def generate (f : Factory) (beh : GenBehavior) (models : List String)
    (retries : Option Int) : GenRun :=
  generateModels f beh (retries.getD 3) models none

/-! ### Streaming modes

`generateStream` (llm-factory.ts lines 127-210) and
`generateReadableStream` (lines 296-386) run the same per-request state
machine: state (currentModelIndex, currentAttempt); an attempt relays its
chunks in order onto the single shared channel (writer.write /
controller.enqueue); on failure `currentAttempt++`, and once
`currentAttempt >= maxRetries` the loop advances to the next model with
`currentAttempt = 0`.  In these modes `getProviderForModel` is called
inside the try (lines 148, 327), so a routing failure is caught as a
failed attempt.  On success `getMetadata` rewrites `metadata.model` to the
winning model (lines 203, 379). -/

/-- One provider streaming attempt: the chunks emitted (all relayed before
any failure is observed) and then either the deferred metadata (successful
completion) or an error. -/
structure StreamAttempt where
  chunks : List String
  result : Except String Metadata

/-- Provider oracle for the pull-sequence and byte-channel modes. -/
def StreamBehavior : Type := String → Nat → StreamAttempt

/-- One iteration's attempt: the `getProviderForModel` call sits inside the
try, so its exception becomes a chunkless failed attempt. -/
def streamAttempt (f : Factory) (beh : StreamBehavior) (model : String)
    (idx : Nat) : StreamAttempt :=
  match getProviderForModel f model with
  | .error e => { chunks := [], result := .error e }
  | .ok _ => beh model idx

/-- Number of attempts one candidate receives before the loop advances:
`currentAttempt` is incremented after each failure and compared with
`maxRetries` afterwards (`if (currentAttempt >= maxRetries)`), so a
candidate is attempted `maxRetries` times when `maxRetries >= 1` and once
when `maxRetries <= 0`. -/
def attemptsPerCandidate (maxRetries : Int) : Nat :=
  max 1 maxRetries.toNat

/-- Result of a streaming-mode run: per-attempt records
(model, attempt-index, chunks relayed by that attempt) in order, and
either the winning metadata or the terminal aggregate error. -/
structure StreamRun where
  attempts : List (String × Nat × List String)
  result : Except String Metadata
deriving DecidableEq

/-- The shared channel's content: every relayed chunk in relay order.
Chunks of a failed attempt were already written and are never retracted;
they precede the next attempt's chunks. -/
def StreamRun.channel (r : StreamRun) : List String :=
  (r.attempts.map fun a => a.2.2).flatten

/-- Per-candidate section of the streaming loop: `fuel` remaining attempts
for this candidate, `idx` the current attempt index, `last` the current
`lastError`.  Returns (attempt records, winning metadata if any,
lastError afterwards). -/
def streamCandidate (f : Factory) (beh : StreamBehavior) (model : String) :
    Nat → Nat → Option String →
    (List (String × Nat × List String) × Option Metadata × Option String)
  | 0, _, last => ([], none, last)
  | n + 1, idx, last =>
    let a := streamAttempt f beh model idx
    match a.result with
    | .ok meta => ([(model, idx, a.chunks)], some meta, last)
    | .error e =>
      let r := streamCandidate f beh model n (idx + 1) (some e)
      ((model, idx, a.chunks) :: r.1, r.2.1, r.2.2)

/-- Candidate iteration of the streaming loop; on success the winning
model is written into the metadata (`metadata.model = result.model`), on
exhaustion the channel is aborted with the aggregate error message. -/
def streamModels (f : Factory) (beh : StreamBehavior) (maxRetries : Int) :
    List String → Option String → StreamRun
  | [], last =>
    ⟨[], .error ("All models failed after retries: " ++ lastErrorMessage last)⟩
  | model :: rest, last =>
    let r := streamCandidate f beh model (attemptsPerCandidate maxRetries) 0 last
    match r.2.1 with
    | some meta => ⟨r.1, .ok { meta with model := model }⟩
    | none =>
      let r' := streamModels f beh maxRetries rest r.2.2
      ⟨r.1 ++ r'.1, r'.result⟩

/-- `LLMFactory.generateStream` (llm-factory.ts lines 127-210), pull mode. -/
def generateStreamRun (f : Factory) (beh : StreamBehavior)
    (models : List String) (retries : Option Int) : StreamRun :=
  streamModels f beh (retries.getD 3) models none

/-- `LLMFactory.generateReadableStream` (llm-factory.ts lines 296-386),
byte-channel mode; its `tryGeneration` recursion performs the same
transitions as `generateStream`'s while-loop, enqueuing each chunk onto
the one shared `ReadableStream` controller. -/
def generateReadableStreamRun (f : Factory) (beh : StreamBehavior)
    (models : List String) (retries : Option Int) : StreamRun :=
  streamModels f beh (retries.getD 3) models none

/-! ### Callback mode -/

/-- One provider callback attempt: the chunks passed to `onChunk` in order,
then either the `onComplete` response or the `onError` error. -/
structure CallbackAttempt where
  chunks : List String
  result : Except String LLMResponse

/-- Provider oracle for callback mode. -/
def CallbackBehavior : Type := String → Nat → CallbackAttempt

/-- In `generateWithCallbacks` the `getProviderForModel` call sits inside
the try (line 240); a routing failure is caught (line 272) and treated like
an `onError` with no chunks. -/
def callbackAttempt (f : Factory) (beh : CallbackBehavior) (model : String)
    (idx : Nat) : CallbackAttempt :=
  match getProviderForModel f model with
  | .error e => { chunks := [], result := .error e }
  | .ok _ => beh model idx

/-- Result of a `generateWithCallbacks` run: the per-attempt records
(model, attempt-index, chunks relayed by that attempt) in order — the
per-attempt observability of the loop's `console.warn` hooks, mirroring
`GenRun.trace` and `StreamRun.attempts` — and either the terminal
`onError` message, or the `onComplete` pair of (accumulator value at
completion, response with `metadata.model` overwritten). -/
structure CallbackRun where
  attempts : List (String × Nat × List String)
  result : Except String (String × LLMResponse)
deriving DecidableEq

/-- All chunks passed to the caller's `onChunk`, in order: the caller's
`onChunk` fires for every chunk of every attempt (line 247). -/
def CallbackRun.relayed (r : CallbackRun) : List String :=
  (r.attempts.map fun a => a.2.2).flatten

/-- Per-candidate section of `tryGeneration` (llm-factory.ts lines
227-287): the accumulator is reset at the start of each attempt
(line 237: `accumulator = ""`), then every chunk is appended to it and
relayed to the caller's `onChunk`.  On failure `currentAttempt++` with the
same advance rule as the streaming modes. -/
def callbackCandidate (f : Factory) (beh : CallbackBehavior) (model : String) :
    Nat → Nat → Option String →
    (List (String × Nat × List String) × Option (String × LLMResponse) × Option String)
  | 0, _, last => ([], none, last)
  | n + 1, idx, last =>
    let a := callbackAttempt f beh model idx
    match a.result with
    | .ok resp =>
      ([(model, idx, a.chunks)],
       some (String.join a.chunks,
             { resp with metadata := { resp.metadata with model := model } }),
       last)
    | .error e =>
      let r := callbackCandidate f beh model n (idx + 1) (some e)
      ((model, idx, a.chunks) :: r.1, r.2.1, r.2.2)

/-- Candidate iteration of `generateWithCallbacks`; at exhaustion `onError`
receives the aggregate message (lines 228-233). -/
def callbackModels (f : Factory) (beh : CallbackBehavior) (maxRetries : Int) :
    List String → Option String → CallbackRun
  | [], last =>
    ⟨[], .error ("All models failed after retries: " ++ lastErrorMessage last)⟩
  | model :: rest, last =>
    let r := callbackCandidate f beh model (attemptsPerCandidate maxRetries) 0 last
    match r.2.1 with
    | some done => ⟨r.1, .ok done⟩
    | none =>
      let r' := callbackModels f beh maxRetries rest r.2.2
      ⟨r.1 ++ r'.1, r'.result⟩

/-- `LLMFactory.generateWithCallbacks` (llm-factory.ts lines 215-291). -/
def generateWithCallbacksRun (f : Factory) (beh : CallbackBehavior)
    (models : List String) (retries : Option Int) : CallbackRun :=
  callbackModels f beh (retries.getD 3) models none

/-! ### Pricing and cost calculation

`src/constants/pricing.ts` and `calculateCost`
(`src/utils/schema-converter.ts` lines 164-218, the tiered version; the
flat-only copy in `src/utils/tokens.ts` computes the same values on
flat-priced models).  Monetary amounts and token counts are embedded as
exact rationals. -/

/-- One tier entry of `TokenPricing.tieredPricing`. -/
structure TierPricing where
  threshold : ℚ
  belowThreshold : ℚ
  aboveThreshold : ℚ
deriving DecidableEq

/-- `tieredPricing`: separate optional tiers for input and output. -/
structure TieredPricing where
  input : Option TierPricing
  output : Option TierPricing
deriving DecidableEq

/-- `TokenPricing` (`src/constants/pricing.ts`). -/
structure TokenPricing where
  inputTokens : Option ℚ := none
  outputTokens : Option ℚ := none
  tieredPricing : Option TieredPricing := none
deriving DecidableEq

/-- `MODEL_PRICING` table (`src/constants/pricing.ts`), USD per million
tokens. -/
def MODEL_PRICING : List (String × TokenPricing) :=
  [("gpt-4.1", { inputTokens := some 2.00, outputTokens := some 8.00 }),
   ("gpt-4.1-mini", { inputTokens := some 0.40, outputTokens := some 1.60 }),
   ("gpt-4.1-nano", { inputTokens := some 0.10, outputTokens := some 0.40 }),
   ("gpt-4o", { inputTokens := some 2.5, outputTokens := some 10.0 }),
   ("gpt-4o-mini", { inputTokens := some 0.15, outputTokens := some 0.6 }),
   ("gpt-4o-audio-preview", { inputTokens := some 2.5, outputTokens := some 10.0 }),
   ("gpt-4o-mini-audio-preview", { inputTokens := some 0.15, outputTokens := some 0.6 }),
   ("gemini-2.5-pro-preview-03-25",
    { tieredPricing := some
        { input := some { threshold := 200000, belowThreshold := 1.25, aboveThreshold := 2.50 },
          output := some { threshold := 200000, belowThreshold := 10.0, aboveThreshold := 15.0 } } }),
   ("gemini-2.0-flash", { inputTokens := some 0.1, outputTokens := some 0.4 }),
   ("gemini-2.0-flash-lite", { inputTokens := some 0.075, outputTokens := some 0.3 }),
   ("claude-3-7-sonnet-latest", { inputTokens := some 3.0, outputTokens := some 15.0 }),
   ("claude-3-5-haiku-latest", { inputTokens := some 0.8, outputTokens := some 4.0 })]

/-- `MODEL_PRICING[model]` lookup. -/
def modelPricingLookup (model : String) : Option TokenPricing :=
  MODEL_PRICING.lookup model

/-- The tiered branch of `calculateCost` for one side (lines 180-188 /
195-203): all tokens at the below-threshold rate when
`tokens <= threshold`, else the threshold at the lower rate plus only the
excess at the higher rate. -/
def tieredCost (t : TierPricing) (tokens : ℚ) : ℚ :=
  if tokens ≤ t.threshold then
    tokens / 1000000 * t.belowThreshold
  else
    t.threshold / 1000000 * t.belowThreshold
      + (tokens - t.threshold) / 1000000 * t.aboveThreshold

/-- One optional side of the tiered branch (`if (pricing.tieredPricing.input)`
lines 177, 192): a side without a tier entry contributes cost 0. -/
def tieredSide (side : Option TierPricing) (tokens : ℚ) : ℚ :=
  match side with
  | some t => tieredCost t tokens
  | none => 0

/-- Flat branch for one side (lines 207-213); the JS truthiness guard
`if (pricing.inputTokens)` skips a missing (or zero) rate, leaving that
side's cost 0 — the same value the multiplication would give for rate 0. -/
def flatCost (rate : Option ℚ) (tokens : ℚ) : ℚ :=
  match rate with
  | some r => tokens / 1000000 * r
  | none => 0

/-- `calculateCost` (`src/utils/schema-converter.ts` lines 164-218): throws
for a model without a pricing entry; otherwise sums the input-side and
output-side costs, each computed independently.  The source's trailing
`Number.parseFloat((inputCost + outputCost).toFixed(20))` is the identity
on these exact rationals (denominators divide 10^10) and is not
re-modelled. -/
def calculateCost (model : String) (inputTokens outputTokens : ℚ) :
    Except String ℚ :=
  match modelPricingLookup model with
  | none => .error ("No pricing information available for model: " ++ model)
  | some pricing =>
    match pricing.tieredPricing with
    | some tiered =>
      .ok (tieredSide tiered.input inputTokens
        + tieredSide tiered.output outputTokens)
    | none =>
      .ok (flatCost pricing.inputTokens inputTokens
        + flatCost pricing.outputTokens outputTokens)

/-- Substring test on character lists, used to state what a surfaced error
message does and does not contain. -/
def listContains (needle hay : List Char) : Bool :=
  (List.range (hay.length + 1)).any fun i =>
    ((hay.drop i).take needle.length) == needle

/-- Boolean error-detector for `Except`, to state rejection without an
existential over the message. -/
def exceptIsError {ε α : Type} : Except ε α → Bool
  | .error _ => true
  | .ok _ => false

/-! ### Concrete fixtures used by the instantiated theorems -/

/-- A factory in which every provider initialized. -/
def fAll : Factory := ⟨fun _ => true⟩

/-- A factory in which only the google provider initialized (openai and
anthropic adapters failed to construct). -/
def fGoogleOnly : Factory := ⟨fun p => p == "google"⟩

/-- Single-shot oracle: every attempt of every model rejects with `boom`. -/
def behAllFail : GenBehavior := fun _ _ => .err "boom"

/-- Single-shot oracle: every attempt resolves, the adapter internally
reporting the model id `reported`. -/
def behAllOk : GenBehavior := fun _ _ =>
  .ok { text := "hi", metadata := { model := "reported" } }

/-- Single-shot oracle for the [A, B, C] fallback scenario: gpt-4o and
gemini-2.0-flash always fail, claude-3-5-haiku-latest succeeds while
reporting a different model id internally. -/
def behABC : GenBehavior := fun m _ =>
  if m == "claude-3-5-haiku-latest" then
    .ok { text := "done", metadata := { model := "reported" } }
  else .err ("fail-" ++ m)

/-- Streaming oracle for scenario 4: candidate gpt-4o emits 2 chunks and
then fails; candidate gemini-2.0-flash emits 3 chunks and completes. -/
def behStream2then3 : StreamBehavior := fun m _ =>
  if m == "gpt-4o" then { chunks := ["c1", "c2"], result := .error "boom" }
  else { chunks := ["c3", "c4", "c5"], result := .ok { model := "reported" } }

/-- Callback oracle for scenario 4, mirroring `behStream2then3`. -/
def behCallback2then3 : CallbackBehavior := fun m _ =>
  if m == "gpt-4o" then { chunks := ["c1", "c2"], result := .error "boom" }
  else
    { chunks := ["c3", "c4", "c5"],
      result := .ok { text := "c3c4c5", metadata := { model := "reported" } } }

/-- Non-negativity of the two rates of one tier entry. -/
def tierNonneg (t : TierPricing) : Bool :=
  decide (0 ≤ t.belowThreshold) && decide (0 ≤ t.aboveThreshold)

/-- Non-negativity of an optional flat rate. -/
def rateNonneg : Option ℚ → Bool
  | some r => decide (0 ≤ r)
  | none => true

/-- Non-negativity of an optional tier entry. -/
def sideNonneg : Option TierPricing → Bool
  | some t => tierNonneg t
  | none => true

/-- Every rate mentioned by a pricing entry is non-negative. -/
def pricingNonneg (p : TokenPricing) : Bool :=
  rateNonneg p.inputTokens && rateNonneg p.outputTokens &&
    (match p.tieredPricing with
     | some t => sideNonneg t.input && sideNonneg t.output
     | none => true)

end LLMFactory

namespace LLMFactory

/-! ### Helper lemmas -/

theorem lookup_mem {α β : Type} [BEq α] (l : List (α × β)) (k : α) (v : β)
    (h : List.lookup k l = some v) : ∃ e ∈ l, e.2 = v := by
  induction l with
  | nil => simp [List.lookup] at h
  | cons hd tl ih =>
    rw [List.lookup] at h
    cases hk : (k == hd.1) with
    | true =>
      rw [hk] at h
      exact ⟨hd, List.mem_cons_self hd tl, by injection h⟩
    | false =>
      rw [hk] at h
      obtain ⟨e, he, hv⟩ := ih h
      exact ⟨e, List.mem_cons_of_mem hd he, hv⟩

theorem pricing_table_nonneg :
    ∀ e ∈ MODEL_PRICING, pricingNonneg e.2 = true := by
  intro e he
  simp only [ MODEL_PRICING, List.mem_cons, List.not_mem_nil, or_false] at he
  rcases he with h | h | h | h | h | h | h | h | h | h | h | h <;>
    subst h <;>
    norm_num [pricingNonneg, rateNonneg, sideNonneg, tierNonneg]

/-! #### Unfolding equations for the single-shot loop -/

theorem generateAttempts_succ (beh : GenBehavior) (m : String)
    (n idx : Nat) (last : Option String) :
    generateAttempts beh m (n + 1) idx last =
      match beh m idx with
      | .ok resp =>
        ([(m, idx)],
         some { resp with metadata := { resp.metadata with model := m } },
         last)
      | .err e =>
        let r := generateAttempts beh m n (idx + 1) (some e)
        ((m, idx) :: r.1, r.2.1, r.2.2) := rfl

theorem generateAttempts_ok (beh : GenBehavior) (m : String)
    (n idx : Nat) (last : Option String) (r : LLMResponse)
    (hb : beh m idx = .ok r) :
    generateAttempts beh m (n + 1) idx last
      = ([(m, idx)],
         some { r with metadata := { r.metadata with model := m } },
         last) := by
  simp [generateAttempts_succ, hb]

theorem generateAttempts_err (beh : GenBehavior) (m : String)
    (n idx : Nat) (last : Option String) (e : String)
    (hb : beh m idx = .err e) :
    generateAttempts beh m (n + 1) idx last
      = ((m, idx) :: (generateAttempts beh m n (idx + 1) (some e)).1,
         (generateAttempts beh m n (idx + 1) (some e)).2.1,
         (generateAttempts beh m n (idx + 1) (some e)).2.2) := by
  simp [generateAttempts_succ, hb]

theorem generateModels_nil (f : Factory) (beh : GenBehavior) (R : Int)
    (last : Option String) :
    generateModels f beh R [] last
      = ⟨[], .error ("All models failed after retries: " ++ lastErrorMessage last)⟩ := rfl

theorem generateModels_cons_routeError (f : Factory) (beh : GenBehavior)
    (R : Int) (m : String) (rest : List String) (last : Option String)
    (e : String) (hp : getProviderForModel f m = .error e) :
    generateModels f beh R (m :: rest) last = ⟨[], .error e⟩ := by
  simp [generateModels, hp]

theorem generateModels_cons_success (f : Factory) (beh : GenBehavior)
    (R : Int) (m : String) (rest : List String) (last : Option String)
    (p : String) (resp : LLMResponse)
    (hp : getProviderForModel f m = .ok p)
    (hs : (generateAttempts beh m R.toNat 0 last).2.1 = some resp) :
    generateModels f beh R (m :: rest) last
      = ⟨(generateAttempts beh m R.toNat 0 last).1, .ok resp⟩ := by
  simp [generateModels, hp, hs]

theorem generateModels_cons_fail (f : Factory) (beh : GenBehavior)
    (R : Int) (m : String) (rest : List String) (last : Option String)
    (p : String) (hp : getProviderForModel f m = .ok p)
    (hs : (generateAttempts beh m R.toNat 0 last).2.1 = none) :
    generateModels f beh R (m :: rest) last
      = ⟨(generateAttempts beh m R.toNat 0 last).1
           ++ (generateModels f beh R rest
                 (generateAttempts beh m R.toNat 0 last).2.2).trace,
         (generateModels f beh R rest
            (generateAttempts beh m R.toNat 0 last).2.2).result⟩ := by
  simp [generateModels, hp, hs]

/-! #### Behaviour of the single-shot loop when every attempt fails -/

theorem generateAttempts_allFail (beh : GenBehavior) (m : String)
    (hf : ∀ i, ∃ e, beh m i = .err e) :
    ∀ (fuel idx : Nat) (last : Option String),
      (generateAttempts beh m fuel idx last).1.length = fuel ∧
      (generateAttempts beh m fuel idx last).2.1 = none := by
  intro fuel
  induction fuel with
  | zero => intro idx last; simp [generateAttempts]
  | succ n ih =>
    intro idx last
    obtain ⟨e, he⟩ := hf idx
    have h' := ih (idx + 1) (some e)
    simp [generateAttempts, he, h'.1, h'.2]

theorem generateAttempts_trace_model (beh : GenBehavior) (m : String) :
    ∀ (fuel idx : Nat) (last : Option String),
      ∀ a ∈ (generateAttempts beh m fuel idx last).1, a.1 = m := by
  intro fuel
  induction fuel with
  | zero => intro idx last a ha; simp [generateAttempts] at ha
  | succ n ih =>
    intro idx last a ha
    cases hb : beh m idx with
    | ok resp =>
      simp [generateAttempts, hb] at ha
      simp [ha]
    | err e =>
      simp only [generateAttempts, hb] at ha
      rcases List.mem_cons.mp ha with h | h
      · simp [h]
      · exact ih (idx + 1) (some e) a h

theorem generateAttempts_allFail_last (beh : GenBehavior) (m : String)
    (em : Nat → String) (hf : ∀ i, beh m i = .err (em i)) :
    ∀ (fuel idx : Nat) (last : Option String),
      (generateAttempts beh m (fuel + 1) idx last).2.2 = some (em (idx + fuel)) := by
  intro fuel
  induction fuel with
  | zero => intro idx last; simp [generateAttempts, hf idx]
  | succ n ih =>
    intro idx last
    rw [generateAttempts_succ, hf idx]
    simp only
    have hidx : idx + 1 + n = idx + (n + 1) := by omega
    rw [ih (idx + 1) (some (em idx)), hidx]

theorem generateAttempts_success_model (beh : GenBehavior) (m : String) :
    ∀ (fuel idx : Nat) (last : Option String) (resp : LLMResponse),
      (generateAttempts beh m fuel idx last).2.1 = some resp →
      resp.metadata.model = m ∧
      (generateAttempts beh m fuel idx last).1.getLast?.map Prod.fst = some m := by
  intro fuel
  induction fuel with
  | zero => intro idx last resp h; simp [generateAttempts] at h
  | succ n ih =>
    intro idx last resp h
    cases hb : beh m idx with
    | ok r =>
      rw [generateAttempts_ok beh m n idx last r hb] at h ⊢
      simp only [Option.some.injEq] at h
      subst h
      simp
    | err e =>
      rw [generateAttempts_err beh m n idx last e hb] at h ⊢
      obtain ⟨h1, h2⟩ := ih (idx + 1) (some e) resp h
      refine ⟨h1, ?_⟩
      cases hc : (generateAttempts beh m n (idx + 1) (some e)).1 with
      | nil => rw [hc] at h2; simp at h2
      | cons a l =>
        rw [hc] at h2
        dsimp only
        rw [List.getLast?_cons_cons]
        exact h2

theorem generateModels_success_model (f : Factory) (beh : GenBehavior) (R : Int) :
    ∀ (models : List String) (last : Option String) (resp : LLMResponse),
      (generateModels f beh R models last).result = .ok resp →
      (generateModels f beh R models last).trace.getLast?.map Prod.fst
        = some resp.metadata.model := by
  intro models
  induction models with
  | nil => intro last resp h; simp [generateModels] at h
  | cons m rest ih =>
    intro last resp h
    cases hp : getProviderForModel f m with
    | error e =>
      rw [generateModels_cons_routeError f beh R m rest last e hp] at h
      simp at h
    | ok p =>
      cases hs : (generateAttempts beh m R.toNat 0 last).2.1 with
      | some resp' =>
        rw [generateModels_cons_success f beh R m rest last p resp' hp hs] at h ⊢
        simp only [Except.ok.injEq] at h
        subst h
        obtain ⟨h1, h2⟩ := generateAttempts_success_model beh m R.toNat 0 last resp' hs
        simpa [h1] using h2
      | none =>
        rw [generateModels_cons_fail f beh R m rest last p hp hs] at h ⊢
        have h' := ih (generateAttempts beh m R.toNat 0 last).2.2 resp h
        have hne : (generateModels f beh R rest
            (generateAttempts beh m R.toNat 0 last).2.2).trace ≠ [] := by
          intro hnil
          rw [hnil] at h'
          simp at h'
        simp only
        rw [List.getLast?_append_of_ne_nil _ hne]
        exact h'


/-! #### Exhaustion message of the single-shot loop -/

theorem generateModels_exhaust (f : Factory) (beh : GenBehavior)
    (em : String → Nat → String) (hf : ∀ m i, beh m i = .err (em m i))
    (R : Int) (hR : 1 ≤ R) :
    ∀ (init : List String) (mlast : String),
      (∀ m ∈ init ++ [mlast], ∃ p, getProviderForModel f m = .ok p) →
      ∀ (last : Option String),
        (generateModels f beh R (init ++ [mlast]) last).result
          = .error ("All models failed after retries: "
              ++ lastErrorMessage (some (em mlast (R.toNat - 1)))) := by
  intro init
  induction init with
  | nil =>
    intro mlast hroute last
    obtain ⟨p, hp⟩ := hroute mlast (by simp)
    obtain ⟨n, hn⟩ : ∃ n, R.toNat = n + 1 := ⟨R.toNat - 1, by omega⟩
    have hfail : ∀ i, ∃ e, beh mlast i = .err e := fun i => ⟨em mlast i, hf mlast i⟩
    have hnone := (generateAttempts_allFail beh mlast hfail R.toNat 0 last).2
    have hlast := generateAttempts_allFail_last beh mlast (em mlast)
      (fun i => hf mlast i) n 0 last
    rw [List.nil_append]
    rw [generateModels_cons_fail f beh R mlast [] last p hp hnone]
    rw [generateModels_nil]
    rw [hn] at hnone ⊢
    rw [hlast]
    simp only [Nat.zero_add, Nat.add_sub_cancel]
  | cons m init ih =>
    intro mlast hroute last
    obtain ⟨p, hp⟩ := hroute m (by simp)
    have hfail : ∀ i, ∃ e, beh m i = .err e := fun i => ⟨em m i, hf m i⟩
    have hnone := (generateAttempts_allFail beh m hfail R.toNat 0 last).2
    rw [List.cons_append]
    rw [generateModels_cons_fail f beh R m (init ++ [mlast]) last p hp hnone]
    exact ih mlast (fun m' hm' => hroute m' (by simp [hm'])) _


/-! #### Unfolding equations for the streaming loop -/

theorem streamCandidate_succ (f : Factory) (beh : StreamBehavior) (m : String)
    (n idx : Nat) (last : Option String) :
    streamCandidate f beh m (n + 1) idx last =
      match (streamAttempt f beh m idx).result with
      | .ok meta => ([(m, idx, (streamAttempt f beh m idx).chunks)], some meta, last)
      | .error e =>
        let r := streamCandidate f beh m n (idx + 1) (some e)
        ((m, idx, (streamAttempt f beh m idx).chunks) :: r.1, r.2.1, r.2.2) := rfl

theorem streamCandidate_ok (f : Factory) (beh : StreamBehavior) (m : String)
    (n idx : Nat) (last : Option String) (meta : Metadata)
    (hb : (streamAttempt f beh m idx).result = .ok meta) :
    streamCandidate f beh m (n + 1) idx last
      = ([(m, idx, (streamAttempt f beh m idx).chunks)], some meta, last) := by
  rw [streamCandidate_succ, hb]

theorem streamCandidate_err (f : Factory) (beh : StreamBehavior) (m : String)
    (n idx : Nat) (last : Option String) (e : String)
    (hb : (streamAttempt f beh m idx).result = .error e) :
    streamCandidate f beh m (n + 1) idx last
      = ((m, idx, (streamAttempt f beh m idx).chunks)
           :: (streamCandidate f beh m n (idx + 1) (some e)).1,
         (streamCandidate f beh m n (idx + 1) (some e)).2.1,
         (streamCandidate f beh m n (idx + 1) (some e)).2.2) := by
  rw [streamCandidate_succ, hb]

theorem streamModels_nil (f : Factory) (beh : StreamBehavior) (R : Int)
    (last : Option String) :
    streamModels f beh R [] last
      = ⟨[], .error ("All models failed after retries: " ++ lastErrorMessage last)⟩ := rfl

theorem streamModels_cons_success (f : Factory) (beh : StreamBehavior)
    (R : Int) (m : String) (rest : List String) (last : Option String)
    (meta : Metadata)
    (hs : (streamCandidate f beh m (attemptsPerCandidate R) 0 last).2.1 = some meta) :
    streamModels f beh R (m :: rest) last
      = ⟨(streamCandidate f beh m (attemptsPerCandidate R) 0 last).1,
         .ok { meta with model := m }⟩ := by
  simp [streamModels, hs]

theorem streamModels_cons_fail (f : Factory) (beh : StreamBehavior)
    (R : Int) (m : String) (rest : List String) (last : Option String)
    (hs : (streamCandidate f beh m (attemptsPerCandidate R) 0 last).2.1 = none) :
    streamModels f beh R (m :: rest) last
      = ⟨(streamCandidate f beh m (attemptsPerCandidate R) 0 last).1
           ++ (streamModels f beh R rest
                 (streamCandidate f beh m (attemptsPerCandidate R) 0 last).2.2).attempts,
         (streamModels f beh R rest
            (streamCandidate f beh m (attemptsPerCandidate R) 0 last).2.2).result⟩ := by
  simp [streamModels, hs]

/-! #### The streaming loop on a candidate whose provider resolution fails -/

theorem streamCandidate_routeError (f : Factory) (beh : StreamBehavior)
    (m e : String) (he : getProviderForModel f m = .error e) :
    ∀ (fuel idx : Nat) (last : Option String),
      streamCandidate f beh m fuel idx last
        = ((List.range fuel).map fun j => (m, idx + j, ([] : List String)),
           none,
           if fuel = 0 then last else some e) := by
  have hatt : ∀ idx, streamAttempt f beh m idx
      = { chunks := [], result := .error e } := by
    intro idx; simp [streamAttempt, he]
  intro fuel
  induction fuel with
  | zero => intro idx last; simp [streamCandidate]
  | succ n ih =>
    intro idx last
    rw [streamCandidate_err f beh m n idx last e (by rw [hatt])]
    rw [ih (idx + 1) (some e)]
    refine congrArg₂ Prod.mk ?_ (congrArg₂ Prod.mk rfl ?_)
    · rw [hatt]
      rw [List.range_succ_eq_map, List.map_cons, List.map_map]
      refine congrArg₂ List.cons (by simp) ?_
      apply List.map_congr_left
      intro j hj
      simp only [Function.comp_apply]
      refine congrArg₂ Prod.mk rfl (congrArg₂ Prod.mk ?_ rfl)
      omega
    · simp


/-! #### Attribution of a streaming success to the winning candidate -/

theorem streamCandidate_success_model (f : Factory) (beh : StreamBehavior)
    (m : String) :
    ∀ (fuel idx : Nat) (last : Option String) (meta : Metadata),
      (streamCandidate f beh m fuel idx last).2.1 = some meta →
      (streamCandidate f beh m fuel idx last).1.getLast?.map Prod.fst = some m := by
  intro fuel
  induction fuel with
  | zero => intro idx last meta h; simp [streamCandidate] at h
  | succ n ih =>
    intro idx last meta h
    cases hb : (streamAttempt f beh m idx).result with
    | ok meta' =>
      rw [streamCandidate_ok f beh m n idx last meta' hb] at h ⊢
      simp
    | error e =>
      rw [streamCandidate_err f beh m n idx last e hb] at h ⊢
      have h2 := ih (idx + 1) (some e) meta h
      cases hc : (streamCandidate f beh m n (idx + 1) (some e)).1 with
      | nil => rw [hc] at h2; simp at h2
      | cons a l =>
        rw [hc] at h2
        dsimp only
        rw [List.getLast?_cons_cons]
        exact h2

theorem streamModels_success_model (f : Factory) (beh : StreamBehavior) (R : Int) :
    ∀ (models : List String) (last : Option String) (meta : Metadata),
      (streamModels f beh R models last).result = .ok meta →
      (streamModels f beh R models last).attempts.getLast?.map Prod.fst
        = some meta.model := by
  intro models
  induction models with
  | nil => intro last meta h; simp [streamModels] at h
  | cons m rest ih =>
    intro last meta h
    cases hs : (streamCandidate f beh m (attemptsPerCandidate R) 0 last).2.1 with
    | some meta' =>
      rw [streamModels_cons_success f beh R m rest last meta' hs] at h ⊢
      simp only [Except.ok.injEq] at h
      subst h
      have h2 := streamCandidate_success_model f beh m (attemptsPerCandidate R) 0 last meta' hs
      simpa using h2
    | none =>
      rw [streamModels_cons_fail f beh R m rest last hs] at h ⊢
      have h' := ih (streamCandidate f beh m (attemptsPerCandidate R) 0 last).2.2 meta h
      have hne : (streamModels f beh R rest
          (streamCandidate f beh m (attemptsPerCandidate R) 0 last).2.2).attempts ≠ [] := by
        intro hnil
        rw [hnil] at h'
        simp at h'
      simp only
      rw [List.getLast?_append_of_ne_nil _ hne]
      exact h'


/-! #### Unfolding equations for the callback loop -/

theorem callbackCandidate_succ (f : Factory) (beh : CallbackBehavior)
    (m : String) (n idx : Nat) (last : Option String) :
    callbackCandidate f beh m (n + 1) idx last =
      match (callbackAttempt f beh m idx).result with
      | .ok resp =>
        ([(m, idx, (callbackAttempt f beh m idx).chunks)],
         some (String.join (callbackAttempt f beh m idx).chunks,
               { resp with metadata := { resp.metadata with model := m } }),
         last)
      | .error e =>
        let r := callbackCandidate f beh m n (idx + 1) (some e)
        ((m, idx, (callbackAttempt f beh m idx).chunks) :: r.1, r.2.1, r.2.2) := rfl

theorem callbackCandidate_ok (f : Factory) (beh : CallbackBehavior)
    (m : String) (n idx : Nat) (last : Option String) (resp : LLMResponse)
    (hb : (callbackAttempt f beh m idx).result = .ok resp) :
    callbackCandidate f beh m (n + 1) idx last
      = ([(m, idx, (callbackAttempt f beh m idx).chunks)],
         some (String.join (callbackAttempt f beh m idx).chunks,
               { resp with metadata := { resp.metadata with model := m } }),
         last) := by
  rw [callbackCandidate_succ, hb]

theorem callbackCandidate_err (f : Factory) (beh : CallbackBehavior)
    (m : String) (n idx : Nat) (last : Option String) (e : String)
    (hb : (callbackAttempt f beh m idx).result = .error e) :
    callbackCandidate f beh m (n + 1) idx last
      = ((m, idx, (callbackAttempt f beh m idx).chunks)
           :: (callbackCandidate f beh m n (idx + 1) (some e)).1,
         (callbackCandidate f beh m n (idx + 1) (some e)).2.1,
         (callbackCandidate f beh m n (idx + 1) (some e)).2.2) := by
  rw [callbackCandidate_succ, hb]

theorem callbackModels_nil (f : Factory) (beh : CallbackBehavior) (R : Int)
    (last : Option String) :
    callbackModels f beh R [] last
      = ⟨[], .error ("All models failed after retries: " ++ lastErrorMessage last)⟩ := rfl

theorem callbackModels_cons_success (f : Factory) (beh : CallbackBehavior)
    (R : Int) (m : String) (rest : List String) (last : Option String)
    (done : String × LLMResponse)
    (hs : (callbackCandidate f beh m (attemptsPerCandidate R) 0 last).2.1
      = some done) :
    callbackModels f beh R (m :: rest) last
      = ⟨(callbackCandidate f beh m (attemptsPerCandidate R) 0 last).1,
         .ok done⟩ := by
  simp [callbackModels, hs]

theorem callbackModels_cons_fail (f : Factory) (beh : CallbackBehavior)
    (R : Int) (m : String) (rest : List String) (last : Option String)
    (hs : (callbackCandidate f beh m (attemptsPerCandidate R) 0 last).2.1
      = none) :
    callbackModels f beh R (m :: rest) last
      = ⟨(callbackCandidate f beh m (attemptsPerCandidate R) 0 last).1
           ++ (callbackModels f beh R rest
                 (callbackCandidate f beh m (attemptsPerCandidate R) 0 last).2.2).attempts,
         (callbackModels f beh R rest
            (callbackCandidate f beh m (attemptsPerCandidate R) 0 last).2.2).result⟩ := by
  simp [callbackModels, hs]

/-! #### The callback loop on a candidate whose provider resolution fails -/

theorem callbackCandidate_routeError (f : Factory) (beh : CallbackBehavior)
    (m e : String) (he : getProviderForModel f m = .error e) :
    ∀ (fuel idx : Nat) (last : Option String),
      callbackCandidate f beh m fuel idx last
        = ((List.range fuel).map fun j => (m, idx + j, ([] : List String)),
           none,
           if fuel = 0 then last else some e) := by
  have hatt : ∀ idx, callbackAttempt f beh m idx
      = { chunks := [], result := .error e } := by
    intro idx; simp [callbackAttempt, he]
  intro fuel
  induction fuel with
  | zero => intro idx last; simp [callbackCandidate]
  | succ n ih =>
    intro idx last
    rw [callbackCandidate_err f beh m n idx last e (by rw [hatt])]
    rw [ih (idx + 1) (some e)]
    refine congrArg₂ Prod.mk ?_ (congrArg₂ Prod.mk rfl ?_)
    · rw [hatt]
      rw [List.range_succ_eq_map, List.map_cons, List.map_map]
      refine congrArg₂ List.cons (by simp) ?_
      apply List.map_congr_left
      intro j hj
      simp only [Function.comp_apply]
      refine congrArg₂ Prod.mk rfl (congrArg₂ Prod.mk ?_ rfl)
      omega
    · simp

/-! #### Attribution of a callback success to the winning candidate -/

theorem callbackCandidate_success_model (f : Factory) (beh : CallbackBehavior)
    (m : String) :
    ∀ (fuel idx : Nat) (last : Option String) (done : String × LLMResponse),
      (callbackCandidate f beh m fuel idx last).2.1 = some done →
      done.2.metadata.model = m ∧
      (callbackCandidate f beh m fuel idx last).1.getLast?.map Prod.fst = some m := by
  intro fuel
  induction fuel with
  | zero => intro idx last done h; simp [callbackCandidate] at h
  | succ n ih =>
    intro idx last done h
    cases hb : (callbackAttempt f beh m idx).result with
    | ok resp =>
      rw [callbackCandidate_ok f beh m n idx last resp hb] at h ⊢
      simp only [Option.some.injEq] at h
      subst h
      simp
    | error e =>
      rw [callbackCandidate_err f beh m n idx last e hb] at h ⊢
      obtain ⟨h1, h2⟩ := ih (idx + 1) (some e) done h
      refine ⟨h1, ?_⟩
      cases hc : (callbackCandidate f beh m n (idx + 1) (some e)).1 with
      | nil => rw [hc] at h2; simp at h2
      | cons a l =>
        rw [hc] at h2
        dsimp only
        rw [List.getLast?_cons_cons]
        exact h2

theorem callbackModels_success_model (f : Factory) (beh : CallbackBehavior)
    (R : Int) :
    ∀ (models : List String) (last : Option String) (done : String × LLMResponse),
      (callbackModels f beh R models last).result = .ok done →
      (callbackModels f beh R models last).attempts.getLast?.map Prod.fst
        = some done.2.metadata.model := by
  intro models
  induction models with
  | nil => intro last done h; simp [callbackModels] at h
  | cons m rest ih =>
    intro last done h
    cases hs : (callbackCandidate f beh m (attemptsPerCandidate R) 0 last).2.1 with
    | some done' =>
      rw [callbackModels_cons_success f beh R m rest last done' hs] at h ⊢
      simp only [Except.ok.injEq] at h
      subst h
      obtain ⟨h1, h2⟩ := callbackCandidate_success_model f beh m
        (attemptsPerCandidate R) 0 last done' hs
      simpa [h1] using h2
    | none =>
      rw [callbackModels_cons_fail f beh R m rest last hs] at h ⊢
      have h' := ih (callbackCandidate f beh m (attemptsPerCandidate R) 0 last).2.2 done h
      have hne : (callbackModels f beh R rest
          (callbackCandidate f beh m (attemptsPerCandidate R) 0 last).2.2).attempts
            ≠ [] := by
        intro hnil
        rw [hnil] at h'
        simp at h'
      simp only
      rw [List.getLast?_append_of_ne_nil _ hne]
      exact h'

/-! #### Monotonicity of the cost calculation -/

theorem tieredCost_mono (t : TierPricing) (hb : 0 ≤ t.belowThreshold)
    (ha : 0 ≤ t.aboveThreshold) (x y : ℚ) (hxy : x ≤ y) :
    tieredCost t x ≤ tieredCost t y := by
  unfold tieredCost
  split_ifs with h1 h2 h3
  · gcongr
  · have h2' : t.threshold < y := not_le.mp h2
    have e1 : x / 1000000 * t.belowThreshold
        ≤ t.threshold / 1000000 * t.belowThreshold := by gcongr
    have e2 : 0 ≤ (y - t.threshold) / 1000000 * t.aboveThreshold := by
      apply mul_nonneg _ ha
      apply div_nonneg _ (by norm_num)
      linarith
    linarith
  · exact absurd (le_trans hxy h3) h1
  · have : (x - t.threshold) / 1000000 * t.aboveThreshold
        ≤ (y - t.threshold) / 1000000 * t.aboveThreshold := by gcongr
    linarith

theorem tieredSide_mono (s : Option TierPricing) (hs : sideNonneg s = true)
    (x y : ℚ) (hxy : x ≤ y) : tieredSide s x ≤ tieredSide s y := by
  cases s with
  | none => simp [tieredSide]
  | some t =>
    simp only [sideNonneg, tierNonneg, Bool.and_eq_true, decide_eq_true_eq] at hs
    exact tieredCost_mono t hs.1 hs.2 x y hxy

theorem flatCost_mono (r : Option ℚ) (hr : rateNonneg r = true)
    (x y : ℚ) (hxy : x ≤ y) : flatCost r x ≤ flatCost r y := by
  cases r with
  | none => simp [flatCost]
  | some q =>
    simp only [rateNonneg, decide_eq_true_eq] at hr
    simp only [flatCost]
    gcongr

theorem calculateCost_mono (m : String) (i1 i2 o1 o2 c1 c2 : ℚ)
    (hi : i1 ≤ i2) (ho : o1 ≤ o2)
    (h1 : calculateCost m i1 o1 = .ok c1)
    (h2 : calculateCost m i2 o2 = .ok c2) : c1 ≤ c2 := by
  cases hp : modelPricingLookup m with
  | none => simp [calculateCost, hp] at h1
  | some pricing =>
    have hnn : pricingNonneg pricing = true := by
      obtain ⟨e, he, hv⟩ := lookup_mem MODEL_PRICING m pricing hp
      exact hv ▸ pricing_table_nonneg e he
    cases ht : pricing.tieredPricing with
    | some tiered =>
      simp only [calculateCost, hp, ht, Except.ok.injEq] at h1 h2
      subst h1; subst h2
      simp only [pricingNonneg, ht, Bool.and_eq_true] at hnn
      exact add_le_add
        (tieredSide_mono tiered.input hnn.2.1 i1 i2 hi)
        (tieredSide_mono tiered.output hnn.2.2 o1 o2 ho)
    | none =>
      simp only [calculateCost, hp, ht, Except.ok.injEq] at h1 h2
      subst h1; subst h2
      simp only [pricingNonneg, ht, Bool.and_eq_true] at hnn
      exact add_le_add
        (flatCost_mono pricing.inputTokens hnn.1.1 i1 i2 hi)
        (flatCost_mono pricing.outputTokens hnn.1.2 o1 o2 ho)


/-! ### Claim theorems -/

/-- C1: for a `generate` call with a single supported candidate whose
provider is initialized and retries = R >= 1, if every provider attempt
fails then exactly R provider invocations are made, all for that model,
before the call rejects. -/
theorem claim1_single_candidate_exactly_R_attempts (f : Factory)
    (beh : GenBehavior) (m p : String) (R : Nat) (hR : 1 ≤ R)
    (hroute : getProviderForModel f m = .ok p)
    (hf : ∀ i, ∃ e, beh m i = .err e) :
    (generate f beh [m] (some (R : Int))).trace.length = R ∧
    (∀ a ∈ (generate f beh [m] (some (R : Int))).trace, a.1 = m) ∧
    exceptIsError (generate f beh [m] (some (R : Int))).result = true := by
  have htn : ((R : Int)).toNat = R := Int.toNat_natCast R
  have hA := generateAttempts_allFail beh m hf R 0 none
  have hT := generateAttempts_trace_model beh m R 0 none
  simp only [generate, Option.getD_some, generateModels, hroute, htn, hA.2,
    exceptIsError]
  refine ⟨by simp [hA.1], ?_, trivial⟩
  intro a ha
  simp only [List.append_nil] at ha
  exact hT a ha

/-- C1 witness: three failing attempts with retries = 3 on gpt-4o. -/
theorem claim1_witness :
    (generate fAll behAllFail ["gpt-4o"] (some ((3 : Nat) : Int))).trace.length = 3 ∧
    (∀ a ∈ (generate fAll behAllFail ["gpt-4o"] (some ((3 : Nat) : Int))).trace,
      a.1 = "gpt-4o") ∧
    exceptIsError (generate fAll behAllFail ["gpt-4o"] (some ((3 : Nat) : Int))).result
      = true :=
  claim1_single_candidate_exactly_R_attempts fAll behAllFail "gpt-4o" "openai" 3
    (by decide) (by decide) (fun _ => ⟨"boom", rfl⟩)

/-- C2 counterexample: in `generate`, an unknown first candidate aborts the
whole call (zero provider invocations), even though the second candidate
alone would have succeeded — so an unknown candidate does prevent the
remaining candidates from being tried. -/
theorem claim2_counterexample :
    (generate fAll behAllOk ["model-x", "gpt-4o"] (some 3)).result
      = .error "Unsupported model: model-x" ∧
    (generate fAll behAllOk ["model-x", "gpt-4o"] (some 3)).trace = [] ∧
    exceptIsError (generate fAll behAllOk ["gpt-4o"] (some 3)).result = false := by
  decide

/-- C2 amended: in `generate`, an unknown candidate at the head of the
list aborts the whole call with `Unsupported model: m` before any provider
attempt, with no retry budget consumed; in particular an unknown sole
candidate fails immediately with zero attempts. -/
theorem claim2_unsupported_aborts (f : Factory) (beh : GenBehavior)
    (m : String) (rest : List String) (retries : Option Int)
    (hm : modelProviderLookup m = none) :
    (generate f beh (m :: rest) retries).result
      = .error ("Unsupported model: " ++ m) ∧
    (generate f beh (m :: rest) retries).trace = [] := by
  have he : getProviderForModel f m = .error ("Unsupported model: " ++ m) := by
    simp [getProviderForModel, hm]
  rw [generate, generateModels_cons_routeError f beh (retries.getD 3) m rest none _ he]
  exact ⟨rfl, rfl⟩

/-- C2 witness: sole unknown candidate model-y fails immediately. -/
theorem claim2_witness :
    (generate fAll behAllOk ["model-y"] (some 3)).result
      = .error ("Unsupported model: " ++ "model-y") ∧
    (generate fAll behAllOk ["model-y"] (some 3)).trace = [] :=
  claim2_unsupported_aborts fAll behAllOk "model-y" [] (some 3) (by decide)

/-- C5: byte-channel and pull-sequence modes never retract relayed chunks:
with retries = 1, candidate A (gpt-4o) emits 2 chunks then fails and
candidate B (gemini-2.0-flash) emits 3 chunks and succeeds; the channel
holds exactly 5 chunks, A's two first; callback mode relays the same 5
chunks to onChunk but onComplete's accumulated text is only B's 3 chunks
concatenated. -/
theorem claim5_stream_chunk_semantics :
    (generateReadableStreamRun fAll behStream2then3
        ["gpt-4o", "gemini-2.0-flash"] (some 1)).channel
      = ["c1", "c2", "c3", "c4", "c5"] ∧
    (generateReadableStreamRun fAll behStream2then3
        ["gpt-4o", "gemini-2.0-flash"] (some 1)).channel.length = 5 ∧
    (generateWithCallbacksRun fAll behCallback2then3
        ["gpt-4o", "gemini-2.0-flash"] (some 1)).result
      = .ok ("c3c4c5",
             { text := "c3c4c5", metadata := { model := "gemini-2.0-flash" } }) ∧
    (generateWithCallbacksRun fAll behCallback2then3
        ["gpt-4o", "gemini-2.0-flash"] (some 1)).relayed
      = ["c1", "c2", "c3", "c4", "c5"] := by
  decide

/-- C9: `isModelAvailable` is a total Boolean routine (the embedding cannot
throw) returning false both for a model absent from the routing table and
for a model whose provider is not in the initialized-providers map. -/
theorem claim9_isModelAvailable_false_conditions (f : Factory) (m : String) :
    (modelProviderLookup m = none → isModelAvailable f m = false) ∧
    ∀ p, modelProviderLookup m = some p → f.providers p = false →
      isModelAvailable f m = false := by
  constructor
  · intro h; simp [isModelAvailable, h]
  · intro p hp hfp; simp [isModelAvailable, hp, hfp]

/-- C9 witness: an unknown model id, and a known model whose provider
failed to initialize, both report unavailable. -/
theorem claim9_witness :
    isModelAvailable ⟨fun _ => false⟩ "model-z" = false ∧
    isModelAvailable ⟨fun _ => false⟩ "gpt-4o" = false :=
  ⟨(claim9_isModelAvailable_false_conditions ⟨fun _ => false⟩ "model-z").1 (by decide),
   (claim9_isModelAvailable_false_conditions ⟨fun _ => false⟩ "gpt-4o").2 "openai"
     (by decide) rfl⟩

/-- C10: with retries <= 0 and every candidate routable, the attempt loop
body never runs: no provider invocation is made and `generate` rejects with
exactly `All models failed after retries: Unknown error`. -/
theorem claim10_zero_retries (f : Factory) (beh : GenBehavior)
    (models : List String) (z : Int) (hz : z ≤ 0)
    (hroute : ∀ m ∈ models, ∃ p, getProviderForModel f m = .ok p) :
    generate f beh models (some z)
      = ⟨[], .error "All models failed after retries: Unknown error"⟩ := by
  have h0 : z.toNat = 0 := Int.toNat_of_nonpos hz
  unfold generate
  simp only [Option.getD_some]
  induction models with
  | nil => simp [generateModels, lastErrorMessage]
  | cons m rest ih =>
    obtain ⟨p, hp⟩ := hroute m (List.mem_cons_self m rest)
    have ih' := ih (fun m' hm' => hroute m' (List.mem_cons_of_mem m hm'))
    simp only [generateModels, hp, h0, generateAttempts]
    simp [ih']

/-- C10 witness: retries = 0 with a supported, initialized candidate whose
provider would succeed if it were ever invoked. -/
theorem claim10_witness :
    generate fAll behAllOk ["gpt-4o"] (some 0)
      = ⟨[], .error "All models failed after retries: Unknown error"⟩ :=
  claim10_zero_retries fAll behAllOk ["gpt-4o"] 0 (by decide)
    (by
      intro m hm
      rw [List.mem_singleton] at hm
      subst hm
      exact ⟨"openai", by decide⟩)


/-- C3: in every invocation mode, when an attempt succeeds the metadata
returned to the caller has its model field equal to the candidate the
orchestrator was currently trying (the final entry of the attempt trace),
overwriting whatever the provider reported — stated for `generate`, for
`generateStream` (`generateReadableStream` runs the identical loop), and
for `generateWithCallbacks`, and instantiated on candidates
[gpt-4o, gemini-2.0-flash, claude-3-5-haiku-latest] where the first two
always fail and the third succeeds while internally reporting `reported`. -/
theorem claim3_resolved_model_attribution :
    (∀ (f : Factory) (beh : GenBehavior) (models : List String)
        (retries : Option Int) (resp : LLMResponse),
        (generate f beh models retries).result = .ok resp →
        (generate f beh models retries).trace.getLast?.map Prod.fst
          = some resp.metadata.model) ∧
    (∀ (f : Factory) (beh : StreamBehavior) (models : List String)
        (retries : Option Int) (meta : Metadata),
        (generateStreamRun f beh models retries).result = .ok meta →
        (generateStreamRun f beh models retries).attempts.getLast?.map Prod.fst
          = some meta.model) ∧
    (∀ (f : Factory) (beh : StreamBehavior) (models : List String)
        (retries : Option Int) (meta : Metadata),
        (generateReadableStreamRun f beh models retries).result = .ok meta →
        (generateReadableStreamRun f beh models retries).attempts.getLast?.map Prod.fst
          = some meta.model) ∧
    (∀ (f : Factory) (beh : CallbackBehavior) (models : List String)
        (retries : Option Int) (done : String × LLMResponse),
        (generateWithCallbacksRun f beh models retries).result = .ok done →
        (generateWithCallbacksRun f beh models retries).attempts.getLast?.map Prod.fst
          = some done.2.metadata.model) ∧
    (generate fAll behABC
        ["gpt-4o", "gemini-2.0-flash", "claude-3-5-haiku-latest"] (some 1)).result
      = .ok { text := "done",
              metadata := { model := "claude-3-5-haiku-latest" } } := by
  refine ⟨?_, ?_, ?_, ?_, by decide⟩
  · intro f beh models retries resp h
    exact generateModels_success_model f beh _ models none resp h
  · intro f beh models retries meta h
    exact streamModels_success_model f beh _ models none meta h
  · intro f beh models retries meta h
    exact streamModels_success_model f beh _ models none meta h
  · intro f beh models retries done h
    exact callbackModels_success_model f beh _ models none done h

/-- C3 witness: a one-candidate success whose trace's last entry names the
model recorded in the metadata. -/
theorem claim3_witness :
    (generate fAll behAllOk ["gpt-4o"] (some 1)).trace.getLast?.map Prod.fst
      = some ({ text := "hi", metadata := { model := "gpt-4o" } }
          : LLMResponse).metadata.model :=
  claim3_resolved_model_attribution.1 fAll behAllOk ["gpt-4o"] (some 1)
    { text := "hi", metadata := { model := "gpt-4o" } } (by decide)

/-- C4 counterexample: after exhaustion the surfaced aggregate error is
`All models failed after retries: boom` — it carries the last underlying
error's message but not the identity (gpt-4o) of the last candidate
tried, contrary to the claim. -/
theorem claim4_counterexample :
    (generate fAll behAllFail ["gpt-4o"] (some 2)).result
      = .error "All models failed after retries: boom" ∧
    listContains "gpt-4o".toList
      "All models failed after retries: boom".toList = false := by
  decide

/-- C4 amended: the terminal aggregate failure's message is the fixed
prefix `All models failed after retries: ` followed by the message of the
last underlying error (the final attempt of the final candidate), with the
JS falsy fallback `Unknown error` when that message is empty; the
identity of the last candidate is not included. -/
theorem claim4_exhaustion_message (f : Factory) (beh : GenBehavior)
    (em : String → Nat → String) (init : List String) (mlast : String)
    (R : Nat) (hR : 1 ≤ R)
    (hroute : ∀ m ∈ init ++ [mlast], ∃ p, getProviderForModel f m = .ok p)
    (hf : ∀ m i, beh m i = .err (em m i)) :
    (generate f beh (init ++ [mlast]) (some (R : Int))).result
      = .error ("All models failed after retries: "
          ++ lastErrorMessage (some (em mlast (R - 1)))) := by
  have hcast : ((R : Int)).toNat = R := Int.toNat_natCast R
  have h := generateModels_exhaust f beh em hf (R : Int) (by exact_mod_cast hR)
    init mlast hroute none
  rw [hcast] at h
  simpa [generate] using h

/-- C4 witness: two failing attempts on gpt-4o; the surfaced message ends
with the last error's message. -/
theorem claim4_witness :
    (generate fAll behAllFail ([] ++ ["gpt-4o"]) (some ((2 : Nat) : Int))).result
      = .error ("All models failed after retries: " ++ lastErrorMessage (some "boom")) :=
  claim4_exhaustion_message fAll behAllFail (fun _ _ => "boom") [] "gpt-4o" 2
    (by decide)
    (by
      intro m hm
      rw [List.nil_append, List.mem_singleton] at hm
      subst hm
      exact ⟨"openai", by decide⟩)
    (fun _ _ => rfl)

/-- C7: tiered pricing is progressive (no cliff): at the threshold the
whole count is billed at the lower rate, and beyond it only the excess is
billed at the higher rate; `calculateCost` applies the tiers independently
to input and output for the tiered-priced model. -/
theorem claim7_tiered_pricing (t : TierPricing) (k i o : ℚ) (hk : 0 < k) :
    tieredCost t t.threshold = t.threshold / 1000000 * t.belowThreshold ∧
    tieredCost t (t.threshold + k)
      = t.threshold / 1000000 * t.belowThreshold
          + k / 1000000 * t.aboveThreshold ∧
    calculateCost "gemini-2.5-pro-preview-03-25" i o
      = .ok (tieredCost
              { threshold := 200000, belowThreshold := 1.25, aboveThreshold := 2.50 } i
           + tieredCost
              { threshold := 200000, belowThreshold := 10.0, aboveThreshold := 15.0 } o) := by
  refine ⟨by simp [tieredCost], ?_, ?_⟩
  · rw [tieredCost, if_neg (by linarith)]
    have hk' : t.threshold + k - t.threshold = k := by ring
    rw [hk']
  · rfl

/-- C7 witness: the input tier of gemini-2.5-pro-preview-03-25 with an
excess of one token. -/
theorem claim7_witness :
    tieredCost { threshold := 200000, belowThreshold := 1.25, aboveThreshold := 2.50 }
        (200000 : ℚ)
      = (200000 : ℚ) / 1000000 * 1.25 ∧
    tieredCost { threshold := 200000, belowThreshold := 1.25, aboveThreshold := 2.50 }
        ((200000 : ℚ) + 1)
      = (200000 : ℚ) / 1000000 * 1.25 + 1 / 1000000 * 2.50 ∧
    calculateCost "gemini-2.5-pro-preview-03-25" 0 0
      = .ok (tieredCost
              { threshold := 200000, belowThreshold := 1.25, aboveThreshold := 2.50 } 0
           + tieredCost
              { threshold := 200000, belowThreshold := 10.0, aboveThreshold := 15.0 } 0) :=
  claim7_tiered_pricing
    { threshold := 200000, belowThreshold := 1.25, aboveThreshold := 2.50 }
    1 0 0 (by decide)


/-- C6 counterexample: in `generate`, a first candidate whose provider
failed to initialize aborts the whole request with
`Provider not initialized: openai` — zero provider attempts, no retry
slot consumed, no fallback — even though the second candidate alone would
have succeeded. -/
theorem claim6_counterexample :
    (generate fGoogleOnly behAllOk ["gpt-4o", "gemini-2.0-flash"] (some 3)).result
      = .error "Provider not initialized: openai" ∧
    (generate fGoogleOnly behAllOk ["gpt-4o", "gemini-2.0-flash"] (some 3)).trace = [] ∧
    exceptIsError
      (generate fGoogleOnly behAllOk ["gemini-2.0-flash"] (some 3)).result = false := by
  decide

/-- C6 amended: in the streaming and callback modes (where
`getProviderForModel` sits inside the try) a ProviderUnavailable candidate
is treated like a failed attempt — each occurrence consumes one retry slot
(R chunkless failed attempts for the candidate) and the orchestrator then
falls back to the next candidate, which can succeed — stated both for the
`generateStream`/`generateReadableStream` loop and for
`generateWithCallbacks`; in single-shot `generate`, however, the same
condition is raised outside the try/catch and aborts the whole request
immediately (see the counterexample). -/
theorem claim6_provider_unavailable_stream_fallback (f : Factory)
    (beh : StreamBehavior) (cbeh : CallbackBehavior) (m1 p1 m2 p2 : String)
    (R : Int) (hR : 1 ≤ R) (meta : Metadata) (resp : LLMResponse)
    (h1 : modelProviderLookup m1 = some p1) (h2 : f.providers p1 = false)
    (hr2 : getProviderForModel f m2 = .ok p2)
    (hb : (beh m2 0).result = .ok meta)
    (hcb : (cbeh m2 0).result = .ok resp) :
    (generateStreamRun f beh [m1, m2] (some R)).attempts
      = ((List.range R.toNat).map fun j => (m1, j, ([] : List String)))
          ++ [(m2, 0, (beh m2 0).chunks)] ∧
    (generateStreamRun f beh [m1, m2] (some R)).result = .ok { model := m2 } ∧
    (generateWithCallbacksRun f cbeh [m1, m2] (some R)).attempts
      = ((List.range R.toNat).map fun j => (m1, j, ([] : List String)))
          ++ [(m2, 0, (cbeh m2 0).chunks)] ∧
    (generateWithCallbacksRun f cbeh [m1, m2] (some R)).result
      = .ok (String.join (cbeh m2 0).chunks,
             { resp with metadata := { resp.metadata with model := m2 } }) := by
  have he : getProviderForModel f m1
      = .error ("Provider not initialized: " ++ p1) := by
    simp [getProviderForModel, h1, h2]
  have hA : attemptsPerCandidate R = R.toNat := by
    unfold attemptsPerCandidate; omega
  have hRn : ¬ (attemptsPerCandidate R = 0) := by
    unfold attemptsPerCandidate; omega
  obtain ⟨n, hn⟩ : ∃ n, attemptsPerCandidate R = n + 1 :=
    ⟨attemptsPerCandidate R - 1, by unfold attemptsPerCandidate; omega⟩
  have hc1 := streamCandidate_routeError f beh m1 _ he (attemptsPerCandidate R) 0 none
  rw [if_neg hRn] at hc1
  have hfail : (streamCandidate f beh m1 (attemptsPerCandidate R) 0 none).2.1
      = none := by
    rw [hc1]
  have hatt2 : streamAttempt f beh m2 0 = beh m2 0 := by
    simp [streamAttempt, hr2]
  have hok2 : (streamAttempt f beh m2 0).result = .ok meta := by
    rw [hatt2]; exact hb
  have hc2 := streamCandidate_ok f beh m2 n 0
    (streamCandidate f beh m1 (attemptsPerCandidate R) 0 none).2.2 meta hok2
  rw [← hn] at hc2
  have hsucc : (streamCandidate f beh m2 (attemptsPerCandidate R) 0
      (streamCandidate f beh m1 (attemptsPerCandidate R) 0 none).2.2).2.1
        = some meta := by
    rw [hc2]
  have hk1 := callbackCandidate_routeError f cbeh m1 _ he (attemptsPerCandidate R) 0 none
  rw [if_neg hRn] at hk1
  have hkfail : (callbackCandidate f cbeh m1 (attemptsPerCandidate R) 0 none).2.1
      = none := by
    rw [hk1]
  have hkatt2 : callbackAttempt f cbeh m2 0 = cbeh m2 0 := by
    simp [callbackAttempt, hr2]
  have hkok2 : (callbackAttempt f cbeh m2 0).result = .ok resp := by
    rw [hkatt2]; exact hcb
  have hk2 := callbackCandidate_ok f cbeh m2 n 0
    (callbackCandidate f cbeh m1 (attemptsPerCandidate R) 0 none).2.2 resp hkok2
  rw [← hn] at hk2
  have hksucc : (callbackCandidate f cbeh m2 (attemptsPerCandidate R) 0
      (callbackCandidate f cbeh m1 (attemptsPerCandidate R) 0 none).2.2).2.1
        = some (String.join (callbackAttempt f cbeh m2 0).chunks,
                { resp with metadata := { resp.metadata with model := m2 } }) := by
    rw [hk2]
  unfold generateStreamRun generateWithCallbacksRun
  simp only [Option.getD_some]
  rw [streamModels_cons_fail f beh R m1 [m2] none hfail]
  rw [callbackModels_cons_fail f cbeh R m1 [m2] none hkfail]
  simp only
  rw [streamModels_cons_success f beh R m2 []
    (streamCandidate f beh m1 (attemptsPerCandidate R) 0 none).2.2 meta hsucc]
  rw [callbackModels_cons_success f cbeh R m2 []
    (callbackCandidate f cbeh m1 (attemptsPerCandidate R) 0 none).2.2 _ hksucc]
  refine ⟨?_, rfl, ?_, by rw [hkatt2]⟩
  · simp only
    rw [hc2, hc1]
    simp [hatt2, hA]
  · simp only
    rw [hk2, hk1]
    simp [hkatt2, hA]

/-- C6 witness: with only google initialized and retries = 2, both the
streaming loop and the callback loop burn 2 chunkless failed attempts on
gpt-4o and then succeed on gemini-2.0-flash. -/
theorem claim6_witness :
    (generateStreamRun fGoogleOnly behStream2then3
        ["gpt-4o", "gemini-2.0-flash"] (some 2)).attempts
      = ((List.range (2 : Int).toNat).map fun j => ("gpt-4o", j, ([] : List String)))
          ++ [("gemini-2.0-flash", 0, (behStream2then3 "gemini-2.0-flash" 0).chunks)] ∧
    (generateStreamRun fGoogleOnly behStream2then3
        ["gpt-4o", "gemini-2.0-flash"] (some 2)).result
      = .ok { model := "gemini-2.0-flash" } ∧
    (generateWithCallbacksRun fGoogleOnly behCallback2then3
        ["gpt-4o", "gemini-2.0-flash"] (some 2)).attempts
      = ((List.range (2 : Int).toNat).map fun j => ("gpt-4o", j, ([] : List String)))
          ++ [("gemini-2.0-flash", 0, (behCallback2then3 "gemini-2.0-flash" 0).chunks)] ∧
    (generateWithCallbacksRun fGoogleOnly behCallback2then3
        ["gpt-4o", "gemini-2.0-flash"] (some 2)).result
      = .ok (String.join (behCallback2then3 "gemini-2.0-flash" 0).chunks,
             { text := "c3c4c5", metadata := { model := "gemini-2.0-flash" } }) :=
  claim6_provider_unavailable_stream_fallback fGoogleOnly behStream2then3
    behCallback2then3 "gpt-4o" "openai" "gemini-2.0-flash" "google" 2 (by decide)
    { model := "reported" }
    { text := "c3c4c5", metadata := { model := "reported" } }
    (by decide) rfl (by decide) (by decide) (by decide)

/-- C8: for a fixed model with a pricing entry, `calculateCost` is
non-decreasing in the input-token count with the output count held fixed,
and non-decreasing in the output-token count with the input count held
fixed. -/
theorem claim8_cost_monotone (m : String) :
    (∀ (i1 i2 o c1 c2 : ℚ), i1 ≤ i2 →
        calculateCost m i1 o = .ok c1 → calculateCost m i2 o = .ok c2 →
        c1 ≤ c2) ∧
    (∀ (i o1 o2 c1 c2 : ℚ), o1 ≤ o2 →
        calculateCost m i o1 = .ok c1 → calculateCost m i o2 = .ok c2 →
        c1 ≤ c2) := by
  constructor
  · intro i1 i2 o c1 c2 hi h1 h2
    exact calculateCost_mono m i1 i2 o o c1 c2 hi le_rfl h1 h2
  · intro i o1 o2 c1 c2 ho h1 h2
    exact calculateCost_mono m i i o1 o2 c1 c2 le_rfl ho h1 h2

/-- C8 witness: the input direction at gpt-4o with both token counts 0. -/
theorem claim8_witness : (0 : ℚ) ≤ (0 : ℚ) :=
  (claim8_cost_monotone "gpt-4o").1 0 0 0 0 0 le_rfl
    (by simp [calculateCost, modelPricingLookup, MODEL_PRICING, flatCost, List.lookup])
    (by simp [calculateCost, modelPricingLookup, MODEL_PRICING, flatCost, List.lookup])

end LLMFactory
